import Mathlib

/-!
Shallow embedding of `ampere/pkb/providers/oci/oci_network.py`.

The module provisions an OCI network stack (VCN, subnet, internet gateway,
route table, security list) and exposes a firewall facade.  Control-plane
calls are modelled as explicit inputs (observed lifecycle states, the
current ingress-rule list, lookup tables) and as emitted operation traces;
Python exceptions are modelled with `Except PyError`.
-/

/-- The Python exceptions that the embedded code can raise:
`AttributeError` for reading an attribute that was never assigned,
`IndexError` for `data[0]` on an empty list, `json.JSONDecodeError`
for `json.loads` on an invalid document, and `AssertionError` for the
`assert check_state in status_list` in the wait methods (carrying the
observed state for reference). -/
inductive PyError where
  | attributeError (attr : String)
  | indexError
  | jsonDecodeError (msg : String)
  | assertionError (observed : String)
deriving DecidableEq

/-- True on the `Except.ok` constructor. -/
def exceptIsOk {ε α : Type} : Except ε α → Bool
  | Except.ok _ => true
  | Except.error _ => false

/-- Python truthiness of an optional integer: `None` and `0` are falsy,
every other integer is truthy (`if not end_port`, `if start_port`). -/
def pyTruthyInt : Option Int → Bool
  | none => false
  | some n => !(n == 0)

/-- Python `x or default` for an optional string: `None` and the empty
string are falsy (`source_range = source_range or "0.0.0.0/0"`). -/
def pyOrStr : Option String → String → String
  | none, d => d
  | some s, d => if s = "" then d else s

/-- Python string interpolation of an optional identifier:
`f"--vcn-id {self.vcn_id}"` renders `None` as the text `None`. -/
def pyShowOpt : Option String → String
  | none => "None"
  | some s => s

/-- The `icmp-options` block of an ingress security rule after
`json.loads`: either the explicit `null` marker or a block carrying a
code and a type. -/
inductive IcmpOptions where
  | null
  | block (code : Int) (ty : Int)
deriving DecidableEq

/-- The `destinationPortRange` object inside `tcp-options`
(`{"max": end_port, "min": start_port}`). -/
structure DestinationPortRange where
  max : Int
  min : Int
deriving DecidableEq

/-- One ingress security rule as produced by
`OciVcn.AddSecurityListIngressRule` (lines 336-369): the result of
`json.loads(rule_json_string)`.  `udpOptions` is always the `null`
marker in this code, kept as a field for fidelity. -/
structure SecurityRule where
  source : String
  icmpOptions : IcmpOptions
  protocol : String
  isStateless : Bool
  tcpOptions : Option DestinationPortRange
  udpOptions : Option Unit
deriving DecidableEq

/-- Rule construction of `OciVcn.AddSecurityListIngressRule`
(lines 325-328 defaulting, lines 336-369 construction and
`json.loads`).  Faithful points:
* line 325-327: a falsy `end_port` (None or 0) defaults to `start_port`;
* line 328: a falsy `source_range` defaults to `0.0.0.0/0`;
* lines 339-347: for protocol `"1"`, the icmp block is the `null` marker
  only when BOTH `protocol_type` and `protocol_code` are `None`;
  otherwise the block is built by interpolating `str(protocol_code)` and
  `str(protocol_type)` into the JSON text.  When exactly one of them is
  `None`, the interpolated token is the text `None`, which is not valid
  JSON, so `json.loads` at line 369 raises `JSONDecodeError`; the model
  raises at the same logical point (before any append or write-back).
* line 347: the ICMP branch sets `start_port = None`;
* lines 351-357: a truthy `start_port` yields the
  `destinationPortRange` block with `max = end_port`, `min = start_port`;
  otherwise `tcp-options` is the `null` marker;
* line 359: `udp-options` is always the `null` marker. -/
def mkIngressRule (protocol : String) (start_port0 end_port0 : Option Int)
    (source_range0 : Option String) (protocol_type protocol_code : Option Int) :
    Except PyError SecurityRule :=
  let end_port := if pyTruthyInt end_port0 then end_port0 else start_port0
  let source_range := pyOrStr source_range0 "0.0.0.0/0"
  let icmpRes : Except PyError (IcmpOptions × Option Int) :=
    if protocol = "1" then
      if protocol_type = none ∧ protocol_code = none then
        Except.ok (IcmpOptions.null, none)
      else
        match protocol_code, protocol_type with
        | some c, some t => Except.ok (IcmpOptions.block c t, none)
        | _, _ =>
          Except.error (PyError.jsonDecodeError "str of None interpolated into icmp-options")
    else
      Except.ok (IcmpOptions.null, start_port0)
  match icmpRes with
  | Except.error e => Except.error e
  | Except.ok (icmp_options, start_port) =>
    let tcpOptions : Option DestinationPortRange :=
      if pyTruthyInt start_port then
        -- `start_port` truthy implies both options are `some` here
        some { max := end_port.getD 0, min := start_port.getD 0 }
      else none
    Except.ok
      { source := source_range
        icmpOptions := icmp_options
        protocol := protocol
        isStateless := false
        tcpOptions := tcpOptions
        udpOptions := none }

/-- `OciVcn.AddSecurityListIngressRule` (lines 316-384) as a function of
the rule list the control plane currently holds (`current`, fetched by
`GetSecurityListFromId` at line 330) to the rule list written back by
the `security-list update` call (line 371-384): the current list with
the one constructed rule appended (line 369). -/
def addSecurityListIngressRule (current : List SecurityRule) (protocol : String)
    (start_port end_port : Option Int) (source_range : Option String)
    (protocol_type protocol_code : Option Int) :
    Except PyError (List SecurityRule) :=
  match mkIngressRule protocol start_port end_port source_range protocol_type protocol_code with
  | Except.error e => Except.error e
  | Except.ok r => Except.ok (current ++ [r])

/-- The rule written by `AddSecurityListIngressRule(protocol="6", start_port=22)`. -/
def sshRule : SecurityRule :=
  { source := "0.0.0.0/0"
    icmpOptions := IcmpOptions.null
    protocol := "6"
    isStateless := false
    tcpOptions := some { max := 22, min := 22 }
    udpOptions := none }

/-- The rule written by `AddSecurityListIngressRule(protocol="6", start_port=443)`. -/
def httpsRule : SecurityRule :=
  { source := "0.0.0.0/0"
    icmpOptions := IcmpOptions.null
    protocol := "6"
    isStateless := false
    tcpOptions := some { max := 443, min := 443 }
    udpOptions := none }

/-- The body shared by all five `WaitFor*Status` methods (for example
lines 86-89): read the observed `lifecycle-state`, cache it in
`self.status`, and `assert check_state in status_list`.  Returns the
cached status on success and raises `AssertionError` on a non-member
observation. -/
def assertStatus (check_state : String) (status_list : List String) :
    Except PyError String :=
  if check_state ∈ status_list then Except.ok check_state
  else Except.error (PyError.assertionError check_state)

/-- Modelled from the spec: the total number of poll attempts of the
retry wrapper `vm_util.Retry(poll_interval=60)` (not under `src/`).
The spec fixes a 60-second fixed interval and a 10-minute (600-second)
wall-clock ceiling, so attempts run at 0, 60, ..., 600 seconds:
`600 / 60 + 1` attempts in total. -/
def pollAttempts : Nat := 600 / 60 + 1

/-- Modelled from the spec: the retry combinator of `vm_util.Retry`
(not under `src/`).  `retryCall call n k` performs attempt `k`; on
failure it re-queries (attempts `k+1`, ...) while retry budget `n`
remains, and surfaces the last attempt failure once the budget is
exhausted. -/
def retryCall (call : Nat → Except PyError String) : Nat → Nat → Except PyError String
  | 0, k => call k
  | n + 1, k =>
    match call k with
    | Except.ok s => Except.ok s
    | Except.error _ => retryCall call n (k + 1)

/-- `OciVcn.WaitForVcnStatus` (lines 73-89): the status assert wrapped in
`vm_util.Retry(poll_interval=60)`, polling the observation sequence
`observe` from attempt 0. -/
def WaitForVcnStatus (observe : Nat → String) (status_list : List String) :
    Except PyError String :=
  retryCall (fun k => assertStatus (observe k) status_list) (pollAttempts - 1) 0

/-- `OciVcn.WaitForSubnetStatus` (lines 153-169): also wrapped in
`vm_util.Retry(poll_interval=60)`. -/
def WaitForSubnetStatus (observe : Nat → String) (status_list : List String) :
    Except PyError String :=
  retryCall (fun k => assertStatus (observe k) status_list) (pollAttempts - 1) 0

/-- `OciVcn.WaitForInternetGatewayStatus` (lines 203-218): carries NO
`vm_util.Retry` decorator in the source, so it issues a single query
(the first observation) and asserts on it. -/
def WaitForInternetGatewayStatus (observe : Nat → String) (status_list : List String) :
    Except PyError String :=
  assertStatus (observe 0) status_list

/-- `OciVcn.WaitForRouteTableStatus` (lines 251-266): no retry decorator,
single query. -/
def WaitForRouteTableStatus (observe : Nat → String) (status_list : List String) :
    Except PyError String :=
  assertStatus (observe 0) status_list

/-- `OciVcn.WaitForSecurityListStatus` (lines 268-283): no retry
decorator, single query. -/
def WaitForSecurityListStatus (observe : Nat → String) (status_list : List String) :
    Except PyError String :=
  assertStatus (observe 0) status_list

/-- `VCN_CREATE_STATUSES` (lines 33-35); the source is a frozenset used
only for membership, modelled as a list. -/
def VCN_CREATE_STATUSES : List String :=
  ["AVAILABLE", "PROVISIONING", "TERMINATED", "TERMINATING", "UPDATING"]

/-- `SUBNET_CREATE_STATUSES` (lines 37-39). -/
def SUBNET_CREATE_STATUSES : List String :=
  ["AVAILABLE", "PROVISIONING", "TERMINATED", "TERMINATING", "UPDATING"]

/-- `IG_CREATE_STATUSES` (lines 41-43). -/
def IG_CREATE_STATUSES : List String :=
  ["AVAILABLE", "PROVISIONING", "TERMINATED", "TERMINATING"]

/-- `ROUTE_TABLE_UPDATE_STATUSES` (lines 45-47). -/
def ROUTE_TABLE_UPDATE_STATUSES : List String :=
  ["AVAILABLE", "PROVISIONING", "TERMINATED", "TERMINATING"]

/-- `SECURITY_LIST_UPDATE_STATUSES` (lines 49-51). -/
def SECURITY_LIST_UPDATE_STATUSES : List String :=
  ["AVAILABLE", "PROVISIONING", "TERMINATED", "TERMINATING"]

/-- One step of `OciNetwork.Create` in the managed (use_vcn) branch
(lines 455-471).  Wait steps record the expected-state list that the
source passes to the corresponding `WaitFor*Status` call. -/
inductive CreateStep where
  | createVcn
  | waitVcn (expected : List String)
  | getDefaultRouteTableId
  | getDefaultSecurityListId
  | createSubnet
  | waitSubnet (expected : List String)
  | createInternetGateway
  | waitInternetGateway (expected : List String)
  | updateRouteTable
  | waitRouteTable (expected : List String)
  | addIngressRule (protocol : String) (start_port : Option Int)
  | waitSecurityList (expected : List String)
deriving DecidableEq

/-- The step sequence of `OciNetwork.Create` for `use_vcn = True`
(lines 455-471), in source order.  The second ingress rule call passes
only `protocol="1"`, so `start_port` is the signature default 22
(line 319). -/
def ociNetworkCreateTrace : List CreateStep :=
  [ CreateStep.createVcn
  , CreateStep.waitVcn ["AVAILABLE"]
  , CreateStep.getDefaultRouteTableId
  , CreateStep.getDefaultSecurityListId
  , CreateStep.createSubnet
  , CreateStep.waitSubnet ["AVAILABLE"]
  , CreateStep.createInternetGateway
  , CreateStep.waitInternetGateway ["AVAILABLE"]
  , CreateStep.updateRouteTable
  , CreateStep.waitRouteTable ["AVAILABLE"]
  , CreateStep.addIngressRule "6" (some 22)
  , CreateStep.waitSecurityList ["AVAILABLE"]
  , CreateStep.addIngressRule "1" (some 22)
  , CreateStep.waitSecurityList ["AVAILABLE"] ]

/-- The expected-state list a Create step passes to its wait, `none`
for non-wait steps. -/
def expectedStatesOf : CreateStep → Option (List String)
  | CreateStep.waitVcn e => some e
  | CreateStep.waitSubnet e => some e
  | CreateStep.waitInternetGateway e => some e
  | CreateStep.waitRouteTable e => some e
  | CreateStep.waitSecurityList e => some e
  | _ => none

/-- A control-plane mutation or wait issued during teardown.  The
`forced` flag records whether the CLI call carries `--force`. -/
inductive Op where
  | updateRouteTableRules (rt_id : Option String) (routeRules : String) (forced : Bool)
  | deleteInternetGateway (ig_id : Option String) (forced : Bool)
  | deleteSubnet (subnet_id : Option String) (forced : Bool)
  | deleteVcn (vcn_id : Option String) (forced : Bool)
  | waitStatus (resource : String) (expected : List String)
deriving DecidableEq

/-- True exactly on wait operations. -/
def isWaitOp : Op → Bool
  | Op.waitStatus _ _ => true
  | _ => false

/-- True when the operation carries `--force` (waits never do). -/
def opForced : Op → Bool
  | Op.updateRouteTableRules _ _ f => f
  | Op.deleteInternetGateway _ f => f
  | Op.deleteSubnet _ f => f
  | Op.deleteVcn _ f => f
  | Op.waitStatus _ _ => false

/-- The mutable fields of an `OciVcn` instance (lines 57-71) that the
claims mention; `name` is kept because the lookup path reads it. -/
structure OciVcnSt where
  name : String
  status : Option String
  vcn_id : Option String
  subnet_id : Option String
  ig_id : Option String
  rt_id : Option String
  security_list_id : Option String
deriving DecidableEq

/-- `OciVcn.__init__` (lines 57-71): every identifier starts as `None`. -/
def initOciVcn (name : String) : OciVcnSt :=
  { name := name
    status := none
    vcn_id := none
    subnet_id := none
    ig_id := none
    rt_id := none
    security_list_id := none }

/-- The fields of an `OciNetwork` instance (lines 436-449).  The `vcn`
field models the Python attribute precisely: the outer `none` means the
attribute was NEVER ASSIGNED (reading it raises `AttributeError`), and
`some none` would mean an attribute holding the value `None` (falsy but
readable).  `__init__` assigns the attribute only inside
`if self.use_vcn:` (lines 447-449). -/
structure OciNetworkSt where
  name : String
  use_vcn : Bool
  network_id : Option String
  vcn : Option (Option OciVcnSt)
deriving DecidableEq

/-- `OciNetwork.__init__` (lines 436-449): `vcn` is assigned only when
`use_vcn` is true; otherwise the attribute stays unassigned. -/
def initOciNetwork (name : String) (use_vcn : Bool) : OciNetworkSt :=
  { name := name
    use_vcn := use_vcn
    network_id := none
    vcn := if use_vcn then some (some (initOciVcn name)) else none }

/-- The control-plane responses consumed by the lookup path: the ids
returned by `network vcn list --display-name NAME` and by
`network subnet list --vcn-id ID`, in response order. -/
structure OciEnv where
  vcnIdsByName : String → List String
  subnetIdsByVcn : String → List String

/-- `OciVcn.GetVcnIDFromName` (lines 91-104): reads
`response["data"][0]["id"]` for the list query on the display name;
an empty response list raises `IndexError`. -/
def GetVcnIDFromName (env : OciEnv) (v : OciVcnSt) : Except PyError OciVcnSt :=
  match (env.vcnIdsByName v.name).head? with
  | some i => Except.ok { v with vcn_id := some i }
  | none => Except.error PyError.indexError

/-- `OciVcn.GetSubnetIdFromVCNId` (lines 138-151): reads
`response["data"][0]["id"]` for the subnet list query on the stored
`vcn_id` (interpolated Python-style); empty response raises
`IndexError`. -/
def GetSubnetIdFromVCNId (env : OciEnv) (v : OciVcnSt) : Except PyError OciVcnSt :=
  match (env.subnetIdsByVcn (pyShowOpt v.vcn_id)).head? with
  | some i => Except.ok { v with subnet_id := some i }
  | none => Except.error PyError.indexError

/-- The `else` branch of `OciNetwork.Create` (lines 473-476), taken when
`use_vcn` is false: `self.vcn.GetVcnIDFromName()`,
`self.vcn.GetSubnetIdFromVCNId()`, then
`self.network_id = self.vcn.subnet_id`.  Reading `self.vcn` raises
`AttributeError` when the attribute was never assigned, and calling a
method on a `None` value would also raise `AttributeError`. -/
def ociNetworkCreateAttach (env : OciEnv) (st : OciNetworkSt) :
    Except PyError OciNetworkSt :=
  match st.vcn with
  | none => Except.error (PyError.attributeError "vcn")
  | some none => Except.error (PyError.attributeError "NoneType")
  | some (some v) =>
    match GetVcnIDFromName env v with
    | Except.error e => Except.error e
    | Except.ok v1 =>
      match GetSubnetIdFromVCNId env v1 with
      | Except.error e => Except.error e
      | Except.ok v2 =>
        Except.ok { st with vcn := some (some v2), network_id := v2.subnet_id }

/-- `OciVcn.ClearRouteTable` (lines 301-314): issues one
`route-table update --force --route-rules '[]'` call; assigns no field. -/
def ClearRouteTable (v : OciVcnSt) : OciVcnSt × Op :=
  (v, Op.updateRouteTableRules v.rt_id "[]" true)

/-- `OciVcn.DeleteInternetGateway` (lines 237-249): one forced delete,
no field assignment. -/
def DeleteInternetGateway (v : OciVcnSt) : OciVcnSt × Op :=
  (v, Op.deleteInternetGateway v.ig_id true)

/-- `OciVcn.DeleteSubnet` (lines 189-201): one forced delete, no field
assignment. -/
def DeleteSubnet (v : OciVcnSt) : OciVcnSt × Op :=
  (v, Op.deleteSubnet v.subnet_id true)

/-- `OciVcn._Delete` (lines 126-136), reached through the framework
`BaseResource.Delete` wrapper (external to `src/`, which adds retry and
bookkeeping but touches none of these identifier fields): one forced
`vcn delete`, no field assignment. -/
def OciVcnDelete (v : OciVcnSt) : OciVcnSt × Op :=
  (v, Op.deleteVcn v.vcn_id true)

/-- The four teardown operations `OciNetwork.Delete` issues for a stack
whose `OciVcn` state is `v`. -/
def deleteOpsOf (v : OciVcnSt) : List Op :=
  [ Op.updateRouteTableRules v.rt_id "[]" true
  , Op.deleteInternetGateway v.ig_id true
  , Op.deleteSubnet v.subnet_id true
  , Op.deleteVcn v.vcn_id true ]

/-- `OciNetwork.Delete` (lines 478-484): when `use_vcn` is true, run
`ClearRouteTable`, `DeleteInternetGateway`, `DeleteSubnet`, then the
VCN delete, threading the `OciVcn` state and collecting the issued
operations; otherwise do nothing. -/
def OciNetworkDelete (st : OciNetworkSt) : Except PyError (OciNetworkSt × List Op) :=
  if st.use_vcn then
    match st.vcn with
    | none => Except.error (PyError.attributeError "vcn")
    | some none => Except.error (PyError.attributeError "NoneType")
    | some (some v) =>
      let p1 := ClearRouteTable v
      let p2 := DeleteInternetGateway p1.1
      let p3 := DeleteSubnet p2.1
      let p4 := OciVcnDelete p3.1
      Except.ok ({ st with vcn := some (some p4.1) }, [p1.2, p2.2, p3.2, p4.2])
  else Except.ok (st, [])

/-- `OCIFirewall.AllowPort` (lines 494-517).  `current` is the rule list
the control plane holds for the security list, `rtState` the route-table
lifecycle state observed by the trailing
`WaitForRouteTableStatus(["AVAILABLE"])`.  Reading `vm.network.vcn`
raises `AttributeError` when the attribute was never assigned; a falsy
(`None`) value takes the log-and-refuse branch, returning with no
control-plane call; otherwise the ingress rule is added with
protocol `"6"` and the route-table wait runs. -/
def AllowPort (st : OciNetworkSt) (current : List SecurityRule) (rtState : String)
    (start_port : Int) (end_port : Option Int) (source_range : Option String) :
    Except PyError (List SecurityRule) :=
  match st.vcn with
  | none => Except.error (PyError.attributeError "vcn")
  | some none => Except.ok current
  | some (some _) =>
    match addSecurityListIngressRule current "6" (some start_port) end_port
        source_range none none with
    | Except.error e => Except.error e
    | Except.ok rules =>
      match WaitForRouteTableStatus (fun _ => rtState) ["AVAILABLE"] with
      | Except.error e => Except.error e
      | Except.ok _ => Except.ok rules

/-- `OCIFirewall.AllowIcmp` (lines 519-536): same guard as `AllowPort`;
delegates with protocol `"1"` (so `start_port` is the signature default
22, nulled inside the ICMP branch) and then waits on the route table. -/
def AllowIcmp (st : OciNetworkSt) (current : List SecurityRule) (rtState : String)
    (protocol_type protocol_code : Option Int) (source_range : Option String) :
    Except PyError (List SecurityRule) :=
  match st.vcn with
  | none => Except.error (PyError.attributeError "vcn")
  | some none => Except.ok current
  | some (some _) =>
    match addSecurityListIngressRule current "1" (some 22) none
        source_range protocol_type protocol_code with
    | Except.error e => Except.error e
    | Except.ok rules =>
      match WaitForRouteTableStatus (fun _ => rtState) ["AVAILABLE"] with
      | Except.error e => Except.error e
      | Except.ok _ => Except.ok rules

/-- Concrete control-plane environment of spec scenario 2: a pre-existing
network named `net-A` holding one subnet. -/
def envA : OciEnv :=
  { vcnIdsByName := fun n => if n = "net-A" then ["ocid-vcn-A"] else []
    subnetIdsByVcn := fun i => if i = "ocid-vcn-A" then ["ocid-sub-1"] else [] }

/-- A fully populated `OciVcn` state, as after a successful managed
`Create`. -/
def fullVcn : OciVcnSt :=
  { name := "pkb-run1"
    status := some "AVAILABLE"
    vcn_id := some "ocid-vcn"
    subnet_id := some "ocid-sub"
    ig_id := some "ocid-ig"
    rt_id := some "ocid-rt"
    security_list_id := some "ocid-sl" }

/-- A managed network stack holding `fullVcn`. -/
def fullStack : OciNetworkSt :=
  { name := "pkb-run1"
    use_vcn := true
    network_id := some "ocid-sub"
    vcn := some (some fullVcn) }

/-- An observation sequence whose first observed lifecycle state is not
yet a member but whose second is. -/
def obsLate : Nat → String :=
  fun k => if k = 0 then "PROVISIONING" else "AVAILABLE"

/-- A network constructed with `use_vcn = False`: its `vcn` attribute is
never assigned. -/
def noStackNetwork : OciNetworkSt := initOciNetwork "perfkit-x" false

/-- A hypothetical network whose `vcn` attribute holds the value `None`
(no constructor in the source produces this; it is the only state on
which the `if not vm.network.vcn` guard takes its logging branch). -/
def guardNetwork : OciNetworkSt :=
  { name := "perfkit-x"
    use_vcn := false
    network_id := none
    vcn := some none }

/-! ### Helper lemmas -/

/-- A single status assert succeeds exactly when the observed state is a
member of the expected list. -/
theorem exceptIsOk_assertStatus (s : String) (E : List String) :
    exceptIsOk (assertStatus s E) = true ↔ s ∈ E := by
  unfold assertStatus
  split
  · simpa [exceptIsOk]
  · simpa [exceptIsOk]

/-- Characterization of the retry combinator: with retry budget `n`
starting at attempt `k`, the wrapped call ends in success exactly when
some attempt within the budget succeeds. -/
theorem exceptIsOk_retryCall (call : Nat → Except PyError String) :
    ∀ n k, exceptIsOk (retryCall call n k) = true ↔
      ∃ i, i ≤ n ∧ exceptIsOk (call (k + i)) = true := by
  intro n
  induction n with
  | zero =>
    intro k
    constructor
    · intro h
      exact ⟨0, Nat.le_refl 0, by simpa [retryCall] using h⟩
    · rintro ⟨i, hi, h⟩
      have hz : i = 0 := Nat.le_zero.mp hi
      subst hz
      simpa [retryCall] using h
  | succ n ih =>
    intro k
    unfold retryCall
    cases hc : call k with
    | ok s =>
      simp only [exceptIsOk]
      constructor
      · intro _
        exact ⟨0, Nat.zero_le _, by simp [hc, exceptIsOk]⟩
      · intro _
        trivial
    | error e =>
      constructor
      · intro h
        rcases (ih (k + 1)).mp h with ⟨i, hi, h2⟩
        refine ⟨i + 1, Nat.succ_le_succ hi, ?_⟩
        have harith : k + 1 + i = k + (i + 1) := by omega
        simpa [harith] using h2
      · rintro ⟨i, hi, h2⟩
        cases i with
        | zero =>
          simp [hc, exceptIsOk] at h2
        | succ j =>
          apply (ih (k + 1)).mpr
          refine ⟨j, Nat.le_of_succ_le_succ hi, ?_⟩
          have harith : k + 1 + j = k + (j + 1) := by omega
          simpa [harith] using h2

/-! ### Claim theorems -/

/-- C1 (counterexample): the internet-gateway wait, one of the wait
operations the claim quantifies over, fails on a single initial
non-member observation even though the very next observation is a
member of the expected set (well within the 10-minute ceiling): against
expected set `["AVAILABLE"]` and observation sequence
PROVISIONING, AVAILABLE, AVAILABLE, ... it raises an assertion failure
at once instead of re-querying, contradicting the claim that a single
initial non-member observation does not by itself cause failure. -/
theorem C1_counterexample :
    WaitForInternetGatewayStatus obsLate ["AVAILABLE"]
      = Except.error (PyError.assertionError "PROVISIONING")
  ∧ obsLate 0 ∉ (["AVAILABLE"] : List String)
  ∧ obsLate 1 ∈ (["AVAILABLE"] : List String)
  ∧ 1 < pollAttempts := by
  refine ⟨rfl, by decide, by decide, by decide⟩

/-- C1 (amended): only the VCN and subnet waits carry the retry
decorator, so they re-query at the fixed 60-second interval and succeed
exactly when some observation within the poll budget (the 10-minute
ceiling) is a member of the expected set; the internet-gateway,
route-table and security-list waits issue a single query and succeed
exactly when the first observation is already a member, surfacing the
assertion failure (the state mismatch) otherwise. -/
theorem C1_wait_characterization (observe : Nat → String) (E : List String) :
    (exceptIsOk (WaitForVcnStatus observe E) = true ↔
      ∃ k, k < pollAttempts ∧ observe k ∈ E)
  ∧ (exceptIsOk (WaitForSubnetStatus observe E) = true ↔
      ∃ k, k < pollAttempts ∧ observe k ∈ E)
  ∧ (exceptIsOk (WaitForInternetGatewayStatus observe E) = true ↔ observe 0 ∈ E)
  ∧ (exceptIsOk (WaitForRouteTableStatus observe E) = true ↔ observe 0 ∈ E)
  ∧ (exceptIsOk (WaitForSecurityListStatus observe E) = true ↔ observe 0 ∈ E) := by
  have hchar : ∀ w : Nat → String, ∀ L : List String,
      exceptIsOk (retryCall (fun k => assertStatus (w k) L) (pollAttempts - 1) 0) = true ↔
        ∃ k, k < pollAttempts ∧ w k ∈ L := by
    intro w L
    rw [exceptIsOk_retryCall]
    constructor
    · rintro ⟨i, hi, h⟩
      refine ⟨i, ?_, (exceptIsOk_assertStatus _ _).mp (by simpa using h)⟩
      have : pollAttempts = 11 := rfl
      omega
    · rintro ⟨k, hk, h⟩
      refine ⟨k, ?_, by simpa using (exceptIsOk_assertStatus _ _).mpr h⟩
      have : pollAttempts = 11 := rfl
      omega
  exact ⟨hchar observe E, hchar observe E,
    exceptIsOk_assertStatus _ _, exceptIsOk_assertStatus _ _,
    exceptIsOk_assertStatus _ _⟩

/-- C2 (counterexample): the wait issued right after VCN creation in
`OciNetwork.Create` receives the expected-state list `["AVAILABLE"]`,
which is not the full recognized-state set: `PROVISIONING` is a
recognized state but not a member of the passed list. -/
theorem C2_counterexample :
    ociNetworkCreateTrace.get? 1 = some (CreateStep.waitVcn ["AVAILABLE"])
  ∧ "PROVISIONING" ∈ VCN_CREATE_STATUSES
  ∧ "PROVISIONING" ∉ (["AVAILABLE"] : List String) := by
  refine ⟨rfl, by decide, by decide⟩

/-- C2 (amended): every wait step of the managed Create sequence is
passed exactly the singleton expected-state list `["AVAILABLE"]`; the
recognized-state constants such as `VCN_CREATE_STATUSES` are defined in
the module but are not what `Create` passes to its waits. -/
theorem C2_create_waits_available :
    ∀ s ∈ ociNetworkCreateTrace,
      expectedStatesOf s = none ∨ expectedStatesOf s = some ["AVAILABLE"] := by
  decide

/-- C2 (witness): the VCN wait step is in the Create trace and its
expected-state list is the singleton `["AVAILABLE"]`. -/
theorem C2_create_waits_available_witness :
    expectedStatesOf (CreateStep.waitVcn ["AVAILABLE"]) = none ∨
      expectedStatesOf (CreateStep.waitVcn ["AVAILABLE"]) = some ["AVAILABLE"] :=
  C2_create_waits_available (CreateStep.waitVcn ["AVAILABLE"]) (by decide)

/-- C3: `AddSecurityListIngressRule` is additive — for every current
rule list and every rule spec whose construction denotes a rule, the
written-back list is exactly the current list with that one rule
appended at the end; in particular two successive calls with port
ranges 22-22 and then 443-443 on an initially empty list yield a
two-element list containing both ranges, in insertion order. -/
theorem C3_addRule_additive (current : List SecurityRule) (protocol : String)
    (sp ep : Option Int) (src : Option String) (pt pc : Option Int)
    (r : SecurityRule)
    (h : mkIngressRule protocol sp ep src pt pc = Except.ok r) :
    addSecurityListIngressRule current protocol sp ep src pt pc
      = Except.ok (current ++ [r])
  ∧ addSecurityListIngressRule [] "6" (some 22) none none none none
      = Except.ok [sshRule]
  ∧ addSecurityListIngressRule [sshRule] "6" (some 443) none none none none
      = Except.ok [sshRule, httpsRule]
  ∧ sshRule.tcpOptions = some { max := 22, min := 22 }
  ∧ httpsRule.tcpOptions = some { max := 443, min := 443 } := by
  refine ⟨?_, rfl, rfl, rfl, rfl⟩
  unfold addSecurityListIngressRule
  rw [h]

/-- C3 (witness): the general additivity applied to the SSH rule spec on
the empty list. -/
theorem C3_addRule_additive_witness :
    addSecurityListIngressRule [] "6" (some 22) none none none none
      = Except.ok ([] ++ [sshRule])
  ∧ addSecurityListIngressRule [] "6" (some 22) none none none none
      = Except.ok [sshRule]
  ∧ addSecurityListIngressRule [sshRule] "6" (some 443) none none none none
      = Except.ok [sshRule, httpsRule]
  ∧ sshRule.tcpOptions = some { max := 22, min := 22 }
  ∧ httpsRule.tcpOptions = some { max := 443, min := 443 } :=
  C3_addRule_additive [] "6" (some 22) none none none none sshRule rfl

/-- C4: the claim is right and the code is wrong.  With protocol `"1"`,
supplying both type and code yields a rule whose icmp block carries
them, and supplying neither yields the explicit `null` marker — but
supplying exactly one of them does NOT yield the `null` marker: the
source interpolates `str(None)` into the rule JSON and `json.loads`
raises `JSONDecodeError`, so the call fails to construct a rule,
contradicting the claim that the call succeeds in every case. -/
theorem C4_icmp_partial_crash :
    mkIngressRule "1" (some 22) none none (some 3) none
      = Except.error (PyError.jsonDecodeError "str of None interpolated into icmp-options")
  ∧ mkIngressRule "1" (some 22) none none none (some 4)
      = Except.error (PyError.jsonDecodeError "str of None interpolated into icmp-options")
  ∧ mkIngressRule "1" (some 22) none none (some 3) (some 4)
      = Except.ok
        { source := "0.0.0.0/0"
          icmpOptions := IcmpOptions.block 4 3
          protocol := "1"
          isStateless := false
          tcpOptions := none
          udpOptions := none }
  ∧ mkIngressRule "1" (some 22) none none none none
      = Except.ok
        { source := "0.0.0.0/0"
          icmpOptions := IcmpOptions.null
          protocol := "1"
          isStateless := false
          tcpOptions := none
          udpOptions := none } :=
  ⟨rfl, rfl, rfl, rfl⟩

/-- C5: mutual exclusivity of the protocol-specific option blocks —
every rule the editor constructs has no port range when its protocol is
ICMP, carries the `null` icmp marker when its protocol is not ICMP, and
never has both an icmp block and a port range populated. -/
theorem C5_option_blocks_exclusive (protocol : String) (sp ep : Option Int)
    (src : Option String) (pt pc : Option Int) (r : SecurityRule)
    (h : mkIngressRule protocol sp ep src pt pc = Except.ok r) :
    (r.protocol = "1" → r.tcpOptions = none)
  ∧ (r.protocol ≠ "1" → r.icmpOptions = IcmpOptions.null)
  ∧ (r.icmpOptions = IcmpOptions.null ∨ r.tcpOptions = none) := by
  unfold mkIngressRule at h
  by_cases hp : protocol = "1"
  · simp only [hp, if_pos rfl] at h
    by_cases hb : pt = none ∧ pc = none
    · simp only [if_pos hb] at h
      cases h
      refine ⟨fun _ => rfl, fun hne => absurd rfl hne, Or.inl rfl⟩
    · simp only [if_neg hb] at h
      cases hpc : pc with
      | none =>
        rw [hpc] at h
        cases pt <;> simp [pyTruthyInt] at h
      | some c =>
        rw [hpc] at h
        cases hpt : pt with
        | none =>
          rw [hpt] at h
          simp [pyTruthyInt] at h
        | some t =>
          rw [hpt] at h
          simp only [pyTruthyInt, Bool.false_eq_true, if_neg] at h
          cases h
          refine ⟨fun _ => rfl, fun hne => absurd rfl hne, Or.inr rfl⟩
  · simp only [if_neg hp] at h
    cases h
    exact ⟨fun habs => absurd habs hp, fun _ => rfl, Or.inl rfl⟩

/-- C5 (witness): exclusivity applied to the concrete TCP port-22 rule. -/
theorem C5_option_blocks_exclusive_witness :
    (sshRule.protocol = "1" → sshRule.tcpOptions = none)
  ∧ (sshRule.protocol ≠ "1" → sshRule.icmpOptions = IcmpOptions.null)
  ∧ (sshRule.icmpOptions = IcmpOptions.null ∨ sshRule.tcpOptions = none) :=
  C5_option_blocks_exclusive "6" (some 22) none none none none sshRule rfl

/-- C10 (counterexample): with a supplied start port of 0 (and end port
80) the constructed non-ICMP rule carries NO port range: Python
truthiness treats 0 as unsupplied, so `tcp-options` is the `null`
marker, contradicting the claim that a port range is included for every
supplied start-port value including 0. -/
theorem C10_counterexample :
    mkIngressRule "6" (some 0) (some 80) none none none
      = Except.ok
        { source := "0.0.0.0/0"
          icmpOptions := IcmpOptions.null
          protocol := "6"
          isStateless := false
          tcpOptions := none
          udpOptions := none }
  ∧ (mkIngressRule "6" (some 0) (some 80) none none none).map SecurityRule.tcpOptions
      ≠ Except.ok (some { max := 80, min := 0 }) := by
  refine ⟨rfl, fun hcontra => Option.noConfusion (Except.ok.inj hcontra)⟩

/-- C10 (amended): for every non-ICMP rule spec the construction
succeeds with the `null` icmp marker, the source defaults to
`0.0.0.0/0` when falsy, the port-range end defaults to the start port
when the supplied end is falsy, and a port range
`max = end, min = start` is included exactly when the supplied start
port is truthy (nonzero and not None) — with start port 0 or None the
rule carries no port range. -/
theorem C10_nonIcmp_rule_shape (protocol : String) (sp ep : Option Int)
    (src : Option String) (pt pc : Option Int)
    (hp : protocol ≠ "1") :
    mkIngressRule protocol sp ep src pt pc
      = Except.ok
        { source := pyOrStr src "0.0.0.0/0"
          icmpOptions := IcmpOptions.null
          protocol := protocol
          isStateless := false
          tcpOptions :=
            if pyTruthyInt sp then
              some { max := (if pyTruthyInt ep then ep else sp).getD 0, min := sp.getD 0 }
            else none
          udpOptions := none } := by
  unfold mkIngressRule
  simp only [if_neg hp]

/-- C10 (witness): the amended shape at four concrete inputs — start
port 0 yields no port range, a truthy start port with no end yields the
degenerate range, a truthy start with truthy end keeps both, and an
unspecified source defaults. -/
theorem C10_nonIcmp_rule_shape_witness :
    mkIngressRule "6" (some 0) (some 80) none none none
      = Except.ok
        { source := "0.0.0.0/0"
          icmpOptions := IcmpOptions.null
          protocol := "6"
          isStateless := false
          tcpOptions := none
          udpOptions := none }
  ∧ mkIngressRule "6" (some 8080) (some 8090) (some "10.0.0.0/8") none none
      = Except.ok
        { source := "10.0.0.0/8"
          icmpOptions := IcmpOptions.null
          protocol := "6"
          isStateless := false
          tcpOptions := some { max := 8090, min := 8080 }
          udpOptions := none }
  ∧ mkIngressRule "17" (some 53) none none none none
      = Except.ok
        { source := "0.0.0.0/0"
          icmpOptions := IcmpOptions.null
          protocol := "17"
          isStateless := false
          tcpOptions := some { max := 53, min := 53 }
          udpOptions := none } :=
  ⟨C10_nonIcmp_rule_shape "6" (some 0) (some 80) none none none (by decide),
   C10_nonIcmp_rule_shape "6" (some 8080) (some 8090) (some "10.0.0.0/8") none none (by decide),
   C10_nonIcmp_rule_shape "17" (some 53) none none none none (by decide)⟩

/-- C6: the claim is right and the code is wrong.  `OciNetwork.__init__`
assigns the `vcn` attribute only when `use_vcn` is true, so with the
use-managed-network flag false the attribute is never assigned and the
alternative Create path crashes with `AttributeError` on its very first
statement `self.vcn.GetVcnIDFromName()` — even against a control plane
holding the pre-existing network `net-A` with subnet `sub-1`.  Had the
attribute been assigned, the path would behave as the claim states:
only `vcn_id` and `subnet_id` become populated, everything else stays
null, and the call completes without error (third conjunct). -/
theorem C6_attach_bug :
    ociNetworkCreateAttach envA (initOciNetwork "net-A" false)
      = Except.error (PyError.attributeError "vcn")
  ∧ (initOciNetwork "net-A" false).vcn = none
  ∧ ociNetworkCreateAttach envA
      { name := "net-A", use_vcn := false, network_id := none,
        vcn := some (some (initOciVcn "net-A")) }
      = Except.ok
        { name := "net-A", use_vcn := false, network_id := some "ocid-sub-1",
          vcn := some (some
            { name := "net-A", status := none, vcn_id := some "ocid-vcn-A",
              subnet_id := some "ocid-sub-1", ig_id := none, rt_id := none,
              security_list_id := none }) } :=
  ⟨rfl, rfl, rfl⟩

/-- C7: the claim is right and the code is wrong.  On a vm whose network
has no attached stack — which in this code means the `vcn` attribute was
never assigned, since `__init__` only assigns it under the managed flag —
both `AllowPort(vm, 8080, 8090, "10.0.0.0/8")` and `AllowIcmp` raise
`AttributeError` at the guard `if not vm.network.vcn` itself, instead of
refusing with only a log line.  The log-and-refuse branch the guard was
written for is reachable only from a state no constructor produces (the
attribute holding the value `None`): on that state the operations indeed
perform no control-plane write and raise nothing (last two conjuncts). -/
theorem C7_firewall_guard_bug :
    AllowPort noStackNetwork [] "AVAILABLE" 8080 (some 8090) (some "10.0.0.0/8")
      = Except.error (PyError.attributeError "vcn")
  ∧ AllowIcmp noStackNetwork [] "AVAILABLE" none none none
      = Except.error (PyError.attributeError "vcn")
  ∧ AllowPort guardNetwork [] "AVAILABLE" 8080 (some 8090) (some "10.0.0.0/8")
      = Except.ok []
  ∧ AllowIcmp guardNetwork [] "AVAILABLE" none none none
      = Except.ok [] :=
  ⟨rfl, rfl, rfl, rfl⟩

/-- C8 (counterexample): deleting a fully populated managed stack
returns a state in which every owned identifier is still populated —
`Delete` issues the four teardown operations but clears no field, so
the stack after `Delete` equals the stack before, contradicting the
claim that all five identifier fields are cleared to null. -/
theorem C8_counterexample :
    OciNetworkDelete fullStack = Except.ok (fullStack, deleteOpsOf fullVcn)
  ∧ fullVcn.vcn_id ≠ none
  ∧ fullVcn.subnet_id ≠ none
  ∧ fullVcn.ig_id ≠ none
  ∧ fullVcn.rt_id ≠ none
  ∧ fullVcn.security_list_id ≠ none := by
  refine ⟨rfl, by decide, by decide, by decide, by decide, by decide⟩

/-- C8 (amended): a single `Delete()` on a managed stack issues the
teardown operations in reverse dependency order but leaves the whole
stack state — in particular all five owned identifier fields — exactly
unchanged; no field is cleared to null. -/
theorem C8_delete_leaves_fields (st : OciNetworkSt) (v : OciVcnSt)
    (h1 : st.use_vcn = true) (h2 : st.vcn = some (some v)) :
    (OciNetworkDelete st).map Prod.fst = Except.ok st := by
  have h3 : ({ name := st.name, use_vcn := true, network_id := st.network_id, vcn := some (some v) } : OciNetworkSt) = st := by
    rw [← h1, ← h2]
  unfold OciNetworkDelete
  simp [h1, h2, ClearRouteTable, DeleteInternetGateway, DeleteSubnet, OciVcnDelete,
    Except.map, h3]

/-- C8 (witness): the amended statement at the fully populated stack. -/
theorem C8_delete_leaves_fields_witness :
    (OciNetworkDelete fullStack).map Prod.fst = Except.ok fullStack :=
  C8_delete_leaves_fields fullStack fullVcn rfl rfl

/-- C9: `Delete()` on a managed stack issues exactly four control-plane
mutations, in order: replace the route-table rule list with the empty
list, delete the internet gateway, delete the subnet, delete the VCN;
every one of the four carries `--force`, and no wait operation appears
anywhere in the issued sequence. -/
theorem C9_delete_trace (st : OciNetworkSt) (v : OciVcnSt)
    (h1 : st.use_vcn = true) (h2 : st.vcn = some (some v)) :
    (OciNetworkDelete st).map Prod.snd = Except.ok (deleteOpsOf v)
  ∧ deleteOpsOf v
      = [ Op.updateRouteTableRules v.rt_id "[]" true
        , Op.deleteInternetGateway v.ig_id true
        , Op.deleteSubnet v.subnet_id true
        , Op.deleteVcn v.vcn_id true ]
  ∧ (deleteOpsOf v).length = 4
  ∧ (deleteOpsOf v).all (fun o => !(isWaitOp o)) = true
  ∧ (deleteOpsOf v).all opForced = true := by
  refine ⟨?_, rfl, rfl, rfl, rfl⟩
  unfold OciNetworkDelete
  simp [h1, h2, ClearRouteTable, DeleteInternetGateway, DeleteSubnet, OciVcnDelete,
    Except.map, deleteOpsOf]

/-- C9 (witness): the teardown trace at the fully populated stack. -/
theorem C9_delete_trace_witness :
    (OciNetworkDelete fullStack).map Prod.snd = Except.ok (deleteOpsOf fullVcn)
  ∧ deleteOpsOf fullVcn
      = [ Op.updateRouteTableRules fullVcn.rt_id "[]" true
        , Op.deleteInternetGateway fullVcn.ig_id true
        , Op.deleteSubnet fullVcn.subnet_id true
        , Op.deleteVcn fullVcn.vcn_id true ]
  ∧ (deleteOpsOf fullVcn).length = 4
  ∧ (deleteOpsOf fullVcn).all (fun o => !(isWaitOp o)) = true
  ∧ (deleteOpsOf fullVcn).all opForced = true :=
  C9_delete_trace fullStack fullVcn rfl rfl
